import Mathlib

/-
Verification of the Tipsport-Analyzer fantasy-hockey core.

This file gives a shallow embedding, in Lean 4, of the scoring and
lineup-optimization core of the repository (src/scoring.py,
src/optimizer.py, src/advanced_optimizer.py) and proves, or refutes,
the frozen specification claims about it.

Modelling conventions:
* Python floats are modelled as rational numbers (ℚ); arithmetic is exact.
  Where the source calls `math.exp`, the embedding is parameterized by an
  arbitrary function `expA : ℚ → ℚ` standing for the float approximation of
  the exponential, so every theorem quantified over `expA` holds for the
  actual float implementation in particular.
* Python dictionaries of statistics are association lists
  `List (String × PyVal)`; lookup takes the first binding, so prepending a
  binding implements dict assignment observably.
* A value stored in a stats dictionary is `PyVal.none` (Python `None`),
  `PyVal.num q` (a value on which `float(...)` succeeds, yielding `q`), or
  `PyVal.nonNum` (a present value on which `float(...)` raises).
* `int(x)` on a float is truncation toward zero, modelled by `pyInt`.
* Fallible code paths are modelled with `Except String`; total Lean
  functions model Python functions that cannot raise.
-/

set_option autoImplicit false

namespace TipsportAnalyzer

/-- A value stored in a Python statistics dictionary: `None`, a value that
`float(...)` coerces to the rational `q`, or a present non-coercible value. -/
inductive PyVal where
  | none : PyVal
  | num (q : ℚ) : PyVal
  | nonNum : PyVal
deriving DecidableEq

/-- A Python dict of statistics, as an association list.  Lookup returns the
first binding of a key. -/
abbrev StatsBag : Type := List (String × PyVal)

/-- Dictionary lookup (`stats[key]` guarded by `key in stats`): the first
binding of `key`, if any. -/
def dictGet (bag : StatsBag) (key : String) : Option PyVal :=
  (List.find? (fun kv => kv.1 = key) bag).map (fun kv => kv.2)

/-- Dictionary assignment `bag[key] = v`.  Since `dictGet` returns the first
binding, prepending the new binding realises the update. -/
def dictSet (bag : StatsBag) (key : String) (v : PyVal) : StatsBag :=
  (key, v) :: bag

/-- Truncation toward zero, Python `int(...)` applied to a float. -/
def pyInt (q : ℚ) : ℤ :=
  if 0 ≤ q then ⌊q⌋ else ⌈q⌉

/-- An ASCII-whitespace test modelling the characters `str.strip()` removes
(the repository's position strings only ever carry ASCII whitespace). -/
def isPySpace (c : Char) : Bool :=
  c == ' ' || c == '\t' || c == '\n' || c == '\r'

/-- Python `str.strip()`: drop leading and trailing whitespace. -/
def pyStrip (s : String) : String :=
  String.mk (((s.data.dropWhile isPySpace).reverse.dropWhile isPySpace).reverse)

/-- Python `str.upper()` on one character, restricted to ASCII letters and the
accented letters occurring in the repository's position alias tables
(identity elsewhere). -/
def pyUpperChar (c : Char) : Char :=
  if 'a' ≤ c ∧ c ≤ 'z' then Char.ofNat (c.toNat - 32)
  else if c = 'á' then 'Á'
  else if c = 'é' then 'É'
  else if c = 'í' then 'Í'
  else if c = 'ó' then 'Ó'
  else if c = 'ú' then 'Ú'
  else if c = 'ý' then 'Ý'
  else if c = 'č' then 'Č'
  else if c = 'ř' then 'Ř'
  else if c = 'š' then 'Š'
  else if c = 'ž' then 'Ž'
  else if c = 'ů' then 'Ů'
  else if c = 'ť' then 'Ť'
  else if c = 'ď' then 'Ď'
  else if c = 'ň' then 'Ň'
  else c

/-- Python `str.upper()`, character by character. -/
def pyUpper (s : String) : String :=
  String.mk (s.data.map pyUpperChar)

namespace FantasyScorer

/-- scoring.py `_get_stat`: try each alias key in order; a key that is
absent, bound to `None`, or bound to a value `float(...)` rejects is skipped
(the `except` clause does `continue`); return the coercion of the first
successful key, else `0.0`.  The function is total: it never raises. -/
def _get_stat (stats : StatsBag) : List String → ℚ
  | [] => 0
  | key :: keys =>
    match dictGet stats key with
    | Option.some (PyVal.num q) => q
    | Option.some PyVal.none => _get_stat stats keys
    | Option.some PyVal.nonNum => _get_stat stats keys
    | Option.none => _get_stat stats keys

/-- The common scoring table of scoring.py (`self.common_scoring`). -/
structure CommonScoring where
  penalty_2min : ℚ
  penalty_5min : ℚ
  misconduct_10min : ℚ
  game_misconduct : ℚ
  shot : ℚ
  hit : ℚ
  plus_minus : ℚ
  team_win_regulation : ℚ
  team_win_overtime : ℚ
  team_win_shootout : ℚ
  team_loss_regulation : ℚ
  team_loss_overtime : ℚ
  team_loss_shootout : ℚ

/-- The skater scoring tables of scoring.py (`self.forward_scoring`,
`self.defense_scoring`). -/
structure SkaterScoring where
  goal_even : ℚ
  goal_pp : ℚ
  goal_sh : ℚ
  game_winning_goal : ℚ
  hat_trick : ℚ
  assist_even : ℚ
  assist_pp : ℚ
  assist_sh : ℚ
  blocked_shot : ℚ

/-- The goalie scoring table of scoring.py (`self.goalie_scoring`). -/
structure GoalieScoring where
  goal_even : ℚ
  goal_pp : ℚ
  goal_sh : ℚ
  game_winning_goal : ℚ
  hat_trick : ℚ
  assist_even : ℚ
  assist_pp : ℚ
  assist_sh : ℚ
  win : ℚ
  loss : ℚ
  shutout : ℚ
  save : ℚ
  goal_against : ℚ

/-- scoring.py lines 18-37. -/
def common_scoring : CommonScoring :=
  { penalty_2min := -2
    penalty_5min := -4
    misconduct_10min := -2
    game_misconduct := -6
    shot := 2
    hit := 2
    plus_minus := 2
    team_win_regulation := 4
    team_win_overtime := 2
    team_win_shootout := 2
    team_loss_regulation := -4
    team_loss_overtime := -2
    team_loss_shootout := -2 }

/-- scoring.py lines 40-50. -/
def forward_scoring : SkaterScoring :=
  { goal_even := 12
    goal_pp := 10
    goal_sh := 16
    game_winning_goal := 4
    hat_trick := 6
    assist_even := 12
    assist_pp := 12
    assist_sh := 12
    blocked_shot := 4 }

/-- scoring.py lines 53-63. -/
def defense_scoring : SkaterScoring :=
  { goal_even := 20
    goal_pp := 18
    goal_sh := 24
    game_winning_goal := 4
    hat_trick := 6
    assist_even := 12
    assist_pp := 12
    assist_sh := 12
    blocked_shot := 4 }

/-- scoring.py lines 66-80. -/
def goalie_scoring : GoalieScoring :=
  { goal_even := 40
    goal_pp := 40
    goal_sh := 40
    game_winning_goal := 4
    hat_trick := 6
    assist_even := 12
    assist_pp := 12
    assist_sh := 12
    win := 6
    loss := -6
    shutout := 10
    save := 1
    goal_against := -4 }

/-- The goalie alias list of scoring.py line 641. -/
def goalie_aliases : List String :=
  ["G", "GOALIE", "GOALKEEPER", "B", "BRANKÁR", "BRANKAŘ"]

/-- The defender alias list of scoring.py line 644. -/
def defender_aliases : List String :=
  ["D", "DEFENSE", "DEFENDER", "DEFENSEMAN", "DEFENCEMAN", "O", "OBRANCA", "OBRÁNCE"]

/-- The forward alias list of scoring.py line 648. -/
def forward_aliases : List String :=
  ["F", "C", "LW", "RW", "FORWARD", "ATTACKER", "CENTER", "WING", "Ú", "ÚTOČNÍK",
   "UTOČNÍK", "L", "R"]

/-- scoring.py `_normalize_position` (lines 635-651): uppercase and strip,
then map through the three alias lists, defaulting to forward. -/
def _normalize_position (position : String) : String :=
  let pos := pyStrip (pyUpper position)
  if pos ∈ goalie_aliases then "G"
  else if pos ∈ defender_aliases then "D"
  else if pos ∈ forward_aliases then "F"
  else "F"

end FantasyScorer

/-- The `featuredStats.regularSeason` sub-object of a player record; a field
is `Option.none` when the key is absent or not of the expected dict shape
(the source guards each level with `in` and `isinstance` checks). -/
structure RegularSeason where
  subSeason : Option StatsBag

/-- The `featuredStats` sub-object of a player record. -/
structure FeaturedStats where
  regularSeason : Option RegularSeason

/-- One entry of the `seasonTotals` array.  `season` is
`str(entry.get('season', ''))`, `leagueAbbrev` is `entry.get('leagueAbbrev', '')`,
`gameTypeId` is `entry.get('gameTypeId', 0)`, and `bag` is the full dict of the
entry (its items are what the merge loop and `previous_stats` consume). -/
structure SeasonTotal where
  season : String
  leagueAbbrev : String
  gameTypeId : ℤ
  bag : StatsBag

/-- A player record as consumed by scoring.py: the keys the scoring core
reads.  An `Option.none` field models an absent key (or one failing the
source's `isinstance(..., dict)` / `isinstance(..., list)` guard); `position`
is read with `player.get('position', 'F')` and `cena` with
`player.get('cena', 0)`. -/
structure Player where
  name : String
  team : String
  position : Option String
  cena : ℚ
  featuredStats : Option FeaturedStats
  seasonTotals : Option (List SeasonTotal)
  current_season : Option StatsBag
  stats : Option StatsBag
  current_season_stats : Option StatsBag

namespace FantasyScorer

/-- The current-season tag of scoring.py line 263. -/
def current_season_tag : String := "20252026"

/-- The previous-season tag of scoring.py line 264. -/
def previous_season_tag : String := "20242025"

/-- The tracked numeric stat keys of scoring.py lines 332-335 (the same list
appears at lines 238-241). -/
def numeric_keys : List String :=
  ["goals", "assists", "points", "shots", "hits", "blockedShots",
   "powerPlayGoals", "powerPlayPoints", "shorthandedGoals", "shorthandedPoints",
   "gameWinningGoals", "plusMinus", "pim", "wins", "losses", "shutouts",
   "goalsAgainst", "saves"]

/-- The merge loop of scoring.py lines 289-291: add each item whose key is not
already bound and whose value is not `None`. -/
def dictMerge (current : StatsBag) (items : StatsBag) : StatsBag :=
  items.foldl
    (fun acc kv =>
      if (dictGet acc kv.1).isSome || kv.2 = PyVal.none then acc
      else acc ++ [kv])
    current

/-- The `seasonTotals` scan of scoring.py lines 277-294: skip entries that are
not NHL regular season (`gameTypeId == 2`); merge current-season entries into
`current`; let the last previous-season entry become `previous`. -/
def scanSeasonTotals : List SeasonTotal → StatsBag → StatsBag → StatsBag × StatsBag
  | [], current, previous => (current, previous)
  | t :: ts, current, previous =>
    if t.leagueAbbrev ≠ "NHL" ∨ t.gameTypeId ≠ 2 then
      scanSeasonTotals ts current previous
    else if t.season = current_season_tag then
      scanSeasonTotals ts (dictMerge current t.bag) previous
    else if t.season = previous_season_tag then
      scanSeasonTotals ts current t.bag
    else
      scanSeasonTotals ts current previous

/-- The source-priority cascade of `_extract_combined_stats`
(scoring.py lines 266-303), returning the raw `(current_stats, previous_stats)`
pair before any blending: (1) `featuredStats.regularSeason.subSeason`,
(2) merged NHL regular-season `seasonTotals` entries, then, only if the
current view is still empty, (3) `current_season`, `stats`, or
`current_season_stats`. -/
def extractRawStats (player : Player) : StatsBag × StatsBag :=
  let fromFeatured : StatsBag :=
    match player.featuredStats with
    | Option.some f =>
      match f.regularSeason with
      | Option.some r =>
        match r.subSeason with
        | Option.some s => s
        | Option.none => []
      | Option.none => []
    | Option.none => []
  let scanned :=
    match player.seasonTotals with
    | Option.some ts => scanSeasonTotals ts fromFeatured []
    | Option.none => (fromFeatured, [])
  let current :=
    if scanned.1 = [] then
      match player.current_season with
      | Option.some c => c
      | Option.none =>
        match player.stats with
        | Option.some s => s
        | Option.none =>
          match player.current_season_stats with
          | Option.some c => c
          | Option.none => []
    else scanned.1
  (current, scanned.2)

/-- scoring.py `_calculate_dynamic_weights` (lines 155-198): sigmoid season
weighting with `L = 0.92`, `k = 0.08`, `x0 = 35`, a floor of `0.15` on the
current weight, games capped at 82, and the `(0.15, 0.85)` special case for
zero games.  `expA` stands for `math.exp`. -/
def _calculate_dynamic_weights (expA : ℚ → ℚ) (current_stats : StatsBag) : ℚ × ℚ :=
  let games_played := _get_stat current_stats ["gamesPlayed"]
  if games_played ≤ 0 then (0.15, 0.85)
  else
    let L : ℚ := 0.92
    let k : ℚ := 0.08
    let x0 : ℚ := 35
    let games_capped := min games_played 82
    let current_weight := L / (1 + expA (-k * (games_capped - x0)))
    let current_weight := max 0.15 current_weight
    (current_weight, 1 - current_weight)

/-- scoring.py `_extract_combined_stats` (lines 249-357): extract the raw
current/previous views; return `{}` when no current view exists; when a
previous view exists and the current games-played is positive, replace each
tracked stat by the weighted per-game blend projected onto the current
games-played count and set `gamesPlayed` to the current count; otherwise
return the current view verbatim. -/
def _extract_combined_stats (expA : ℚ → ℚ) (player : Player) : StatsBag :=
  let current_stats := (extractRawStats player).1
  let previous_stats := (extractRawStats player).2
  if current_stats = [] then []
  else
    let current_games := _get_stat current_stats ["gamesPlayed"]
    if previous_stats ≠ [] ∧ 0 < current_games then
      let weights := _calculate_dynamic_weights expA current_stats
      let current_weight := weights.1
      let previous_weight := weights.2
      let previous_games := _get_stat previous_stats ["gamesPlayed"]
      let combined := numeric_keys.foldl
        (fun acc key =>
          let current_val := _get_stat current_stats [key]
          let previous_val := _get_stat previous_stats [key]
          let current_per_game := if 0 < current_games then current_val / current_games else 0
          let previous_per_game := if 0 < previous_games then previous_val / previous_games else 0
          let combined_per_game := current_per_game * current_weight + previous_per_game * previous_weight
          dictSet acc key (PyVal.num (combined_per_game * current_games)))
        current_stats
      dictSet combined "gamesPlayed" (PyVal.num current_games)
    else
      current_stats

/-- scoring.py `_calculate_forward_points` (lines 359-424). -/
def _calculate_forward_points (stats : StatsBag) : ℚ :=
  let total_goals := _get_stat stats ["goals", "g"]
  let pp_goals := _get_stat stats ["powerPlayGoals", "ppg"]
  let sh_goals := _get_stat stats ["shorthandedGoals", "shg"]
  let even_goals := max 0 (total_goals - pp_goals - sh_goals)
  let points := even_goals * forward_scoring.goal_even
    + pp_goals * forward_scoring.goal_pp
    + sh_goals * forward_scoring.goal_sh
  let gwg := _get_stat stats ["gameWinningGoals", "gwg"]
  let points := points + gwg * forward_scoring.game_winning_goal
  let points :=
    if 30 ≤ total_goals then
      points + (max 1 (pyInt (total_goals / 10)) : ℚ) * forward_scoring.hat_trick
    else points
  let total_assists := _get_stat stats ["assists", "a"]
  let pp_assists := max 0 (_get_stat stats ["powerPlayPoints", "ppp"] - pp_goals)
  let sh_assists := max 0 (_get_stat stats ["shorthandedPoints", "shp"] - sh_goals)
  let even_assists := max 0 (total_assists - pp_assists - sh_assists)
  let points := points + even_assists * forward_scoring.assist_even
    + pp_assists * forward_scoring.assist_pp
    + sh_assists * forward_scoring.assist_sh
  let shots := _get_stat stats ["shots", "sog", "s"]
  let points := points + shots * common_scoring.shot
  let hits := _get_stat stats ["hits", "h"]
  let points := points + hits * common_scoring.hit
  let blocked := _get_stat stats ["blockedShots", "blocked", "bs"]
  let points := points + blocked * forward_scoring.blocked_shot
  let plus_minus := _get_stat stats ["plusMinus", "plus_minus_rating", "plusminus"]
  let points := points + plus_minus * common_scoring.plus_minus
  let pim := _get_stat stats ["pim", "penaltyMinutes"]
  let two_min_penalties := pyInt (pim * 0.8 / 2)
  let five_min_penalties := pyInt (pim * 0.15 / 5)
  let misconduct := pyInt (pim * 0.05 / 10)
  let points := points + (two_min_penalties : ℚ) * common_scoring.penalty_2min
    + (five_min_penalties : ℚ) * common_scoring.penalty_5min
    + (misconduct : ℚ) * common_scoring.misconduct_10min
  max 0 points

/-- scoring.py `_calculate_defender_points` (lines 426-489). -/
def _calculate_defender_points (stats : StatsBag) : ℚ :=
  let total_goals := _get_stat stats ["goals", "g"]
  let pp_goals := _get_stat stats ["powerPlayGoals", "ppg"]
  let sh_goals := _get_stat stats ["shorthandedGoals", "shg"]
  let even_goals := max 0 (total_goals - pp_goals - sh_goals)
  let points := even_goals * defense_scoring.goal_even
    + pp_goals * defense_scoring.goal_pp
    + sh_goals * defense_scoring.goal_sh
  let gwg := _get_stat stats ["gameWinningGoals", "gwg"]
  let points := points + gwg * defense_scoring.game_winning_goal
  let points :=
    if 20 ≤ total_goals then
      points + (max 1 (pyInt (total_goals / 15)) : ℚ) * defense_scoring.hat_trick
    else points
  let total_assists := _get_stat stats ["assists", "a"]
  let pp_assists := max 0 (_get_stat stats ["powerPlayPoints", "ppp"] - pp_goals)
  let sh_assists := max 0 (_get_stat stats ["shorthandedPoints", "shp"] - sh_goals)
  let even_assists := max 0 (total_assists - pp_assists - sh_assists)
  let points := points + even_assists * defense_scoring.assist_even
    + pp_assists * defense_scoring.assist_pp
    + sh_assists * defense_scoring.assist_sh
  let shots := _get_stat stats ["shots", "sog", "s"]
  let points := points + shots * common_scoring.shot
  let hits := _get_stat stats ["hits", "h"]
  let points := points + hits * common_scoring.hit
  let blocked := _get_stat stats ["blockedShots", "blocked", "bs"]
  let points := points + blocked * defense_scoring.blocked_shot
  let plus_minus := _get_stat stats ["plusMinus", "plus_minus_rating", "plusminus"]
  let points := points + plus_minus * common_scoring.plus_minus
  let pim := _get_stat stats ["pim", "penaltyMinutes"]
  let two_min_penalties := pyInt (pim * 0.8 / 2)
  let five_min_penalties := pyInt (pim * 0.15 / 5)
  let misconduct := pyInt (pim * 0.05 / 10)
  let points := points + (two_min_penalties : ℚ) * common_scoring.penalty_2min
    + (five_min_penalties : ℚ) * common_scoring.penalty_5min
    + (misconduct : ℚ) * common_scoring.misconduct_10min
  max 0 points

/-- scoring.py `_calculate_goalie_points` (lines 491-541). -/
def _calculate_goalie_points (stats : StatsBag) : ℚ :=
  let wins := _get_stat stats ["wins", "w"]
  let losses := _get_stat stats ["losses", "l"]
  let points := wins * goalie_scoring.win + losses * goalie_scoring.loss
  let shutouts := _get_stat stats ["shutouts", "so"]
  let points := points + shutouts * goalie_scoring.shutout
  let saves := _get_stat stats ["saves", "sv", "savesTotal"]
  let saves :=
    if saves = 0 then
      max 0 (_get_stat stats ["shotsAgainst", "sa"] - _get_stat stats ["goalsAgainst", "ga"])
    else saves
  let points := points + saves * goalie_scoring.save
  let goals_against := _get_stat stats ["goalsAgainst", "ga"]
  let points := points + goals_against * goalie_scoring.goal_against
  let total_goals := _get_stat stats ["goals", "g"]
  let points :=
    if 0 < total_goals then
      let pp_goals := _get_stat stats ["powerPlayGoals", "ppg"]
      let sh_goals := _get_stat stats ["shorthandedGoals", "shg"]
      let even_goals := max 0 (total_goals - pp_goals - sh_goals)
      points + even_goals * goalie_scoring.goal_even
        + pp_goals * goalie_scoring.goal_pp
        + sh_goals * goalie_scoring.goal_sh
    else points
  let total_assists := _get_stat stats ["assists", "a"]
  let points :=
    if 0 < total_assists then
      let pp_assists := max 0 (_get_stat stats ["powerPlayPoints", "ppp"]
        - _get_stat stats ["powerPlayGoals", "ppg"])
      let sh_assists := max 0 (_get_stat stats ["shorthandedPoints", "shp"]
        - _get_stat stats ["shorthandedGoals", "shg"])
      let even_assists := max 0 (total_assists - pp_assists - sh_assists)
      points + even_assists * goalie_scoring.assist_even
        + pp_assists * goalie_scoring.assist_pp
        + sh_assists * goalie_scoring.assist_sh
    else points
  max 0 points

/-- scoring.py `calculate_points` (lines 114-153): normalize the position,
extract the combined stats, return `0.0` when no stats are available, and
dispatch to the position-specific calculator (the Strome debug prints affect
no returned value). -/
def calculate_points (expA : ℚ → ℚ) (player : Player) : ℚ :=
  let position := _normalize_position (player.position.getD "F")
  let stats := _extract_combined_stats expA player
  if stats = [] then 0
  else if position = "G" then _calculate_goalie_points stats
  else if position = "D" then _calculate_defender_points stats
  else _calculate_forward_points stats

/-- scoring.py `calculate_game_score` (lines 668-693). -/
def calculate_game_score (expA : ℚ → ℚ) (player : Player) : ℚ :=
  let stats := _extract_combined_stats expA player
  if stats = [] then 0
  else
    let position := _normalize_position (player.position.getD "F")
    let games := max 1 (_get_stat stats ["gamesPlayed", "games", "gp"])
    if position = "G" then
      let wins := _get_stat stats ["wins", "w"]
      let saves := _get_stat stats ["saves", "sv"]
      let ga := _get_stat stats ["goalsAgainst", "ga"]
      (wins * 0.5 + saves * 0.01 - ga * 0.2) / games
    else
      let goals := _get_stat stats ["goals", "g"]
      let assists := _get_stat stats ["assists", "a"]
      let shots := _get_stat stats ["shots", "s"]
      let blocked := _get_stat stats ["blockedShots", "bs"]
      (goals * 0.75 + assists * 0.7 + shots * 0.05 + blocked * 0.05) / games

/-- scoring.py `calculate_fantasy_points_per_game` (lines 695-704). -/
def calculate_fantasy_points_per_game (expA : ℚ → ℚ) (player : Player) : ℚ :=
  let stats := _extract_combined_stats expA player
  if stats = [] then 0
  else
    let games := max 1 (_get_stat stats ["gamesPlayed", "games", "gp"])
    calculate_points expA player / games

end FantasyScorer

namespace LineupOptimizer

/-- The budget fields of optimizer.py `LineupConstraints` (lines 12-17); the
position-quota dictionaries are carried separately as explicit quota
arguments of the fill loop. -/
structure LineupConstraints where
  base_budget : ℚ
  max_budget : ℚ
  penalty_per_million : ℚ

/-- The dataclass defaults of optimizer.py lines 15-17. -/
def defaultConstraints : LineupConstraints :=
  { base_budget := 100, max_budget := 200, penalty_per_million := 0.01 }

/-- optimizer.py `calculate_budget_penalty` (lines 47-58): zero at or below
the base budget, else one penalty unit per million of overspend. -/
def calculate_budget_penalty (c : LineupConstraints) (total_cost : ℚ) : ℚ :=
  if total_cost ≤ c.base_budget then 0
  else (total_cost - c.base_budget) * c.penalty_per_million

/-- optimizer.py `calculate_effective_points` (lines 60-76). -/
def calculate_effective_points (c : LineupConstraints) (raw_points total_cost : ℚ) : ℚ :=
  raw_points * (1 - calculate_budget_penalty c total_cost)

/-- The goalie alias list of optimizer.py line 92. -/
def goalie_aliases : List String := ["G", "GOALIE", "GOALKEEPER"]

/-- The defender alias list of optimizer.py line 96. -/
def defender_aliases : List String :=
  ["D", "DEFENSE", "DEFENDER", "DEFENSEMAN", "DEFENCEMAN"]

/-- The forward alias list of optimizer.py line 100. -/
def forward_aliases : List String :=
  ["F", "C", "LW", "RW", "FORWARD", "ATTACKER", "CENTER", "WING", "L", "R"]

/-- optimizer.py `normalize_position` (lines 78-103). -/
def normalize_position (position : String) : String :=
  let pos := pyStrip (pyUpper position)
  if pos ∈ goalie_aliases then "G"
  else if pos ∈ defender_aliases then "D"
  else if pos ∈ forward_aliases then "F"
  else "F"

/-- A player as consumed by the greedy starter-fill loop of
`build_greedy_lineup`: the loop reads `player.get('cena', 0)` and
`player.get('value_score', 0)` (the remaining fields feed prints only). -/
structure OptPlayer where
  cena : ℚ
  value_score : ℚ
deriving DecidableEq

/-- The note condition of optimizer.py lines 237-238: when a position group
holds exactly its quota, `build_greedy_lineup` prints that there are no
alternatives for optimization. -/
def logs_no_alternatives_note (available : List OptPlayer) (count : Nat) : Bool :=
  available.length == count

/-- The affordable-alternative scan of optimizer.py lines 271-286: first
later player in the ranked list with positive cost, positive value and an
affordable price. -/
def findCheaperAlternative (rest : List OptPlayer) (total_cost max_budget : ℚ) :
    Option OptPlayer :=
  rest.find? (fun alt =>
    decide (0 < alt.cena) && decide (0 < alt.value_score)
      && decide (total_cost + alt.cena ≤ max_budget))

/-- The per-position starter-fill loop of `build_greedy_lineup`
(optimizer.py lines 240-289): iterate the ranked `available` list; stop when
the quota is met; skip players with non-positive cost or value; accept an
affordable player; for an unaffordable one, scan forward for the first
affordable alternative (which stays in the ranked list for later
iterations, as in the source) or give the slot up.  Returns the selected
starters in selection order. -/
def fill_position_starters :
    List OptPlayer → Nat → ℚ → ℚ → Nat → List OptPlayer
  | [], _, _, _, _ => []
  | player :: rest, count, max_budget, total_cost, selected_count =>
    if count ≤ selected_count then []
    else if player.cena ≤ 0 ∨ player.value_score ≤ 0 then
      fill_position_starters rest count max_budget total_cost selected_count
    else if total_cost + player.cena ≤ max_budget then
      player :: fill_position_starters rest count max_budget
        (total_cost + player.cena) (selected_count + 1)
    else
      match findCheaperAlternative rest total_cost max_budget with
      | Option.some alt =>
        alt :: fill_position_starters rest count max_budget
          (total_cost + alt.cena) (selected_count + 1)
      | Option.none =>
        fill_position_starters rest count max_budget total_cost selected_count

end LineupOptimizer

namespace AdvancedLineupOptimizer

/-- One row of the data frame built by advanced_optimizer.py
`prepare_player_dataframe` (lines 72-82). -/
structure PlayerRow where
  name : String
  position : String
  team : String
  price : ℚ
  games : ℚ
  gs_per_game : ℚ
  fp_per_game : ℚ
  total_gs : ℚ
  total_fp : ℚ

/-- Attribute lookup of a statistics extractor on a `FantasyScorer` instance
(the `scorer._extract_stats(player)` call site of advanced_optimizer.py
line 66).  The class defines exactly one stats-extraction method,
`_extract_combined_stats` (scoring.py line 249); looking up any other
attribute raises `AttributeError`. -/
def fantasyScorerStatsExtractor (expA : ℚ → ℚ) (attr : String) :
    Except String (Player → StatsBag) :=
  if attr = "_extract_combined_stats" then
    Except.ok (FantasyScorer._extract_combined_stats expA)
  else
    Except.error ("AttributeError: FantasyScorer object has no attribute " ++ attr)

/-- advanced_optimizer.py `prepare_player_dataframe` (lines 39-92): skip
players without a positive price; compute the per-game GameScore and fantasy
points; then evaluate `scorer._extract_stats(player)` — an attribute the
class does not define — read the games-played count from its result, skip
zero-games players, and collect the row.  An uncaught exception anywhere in
the loop aborts the whole call, modelled by `Except.error`.  The regression
step `_calculate_projected_fp` (line 90) is reached only with a non-empty
row list, which the attribute error makes impossible, so the model returns
the collected rows. -/
def prepare_player_dataframe (expA : ℚ → ℚ) : List Player → Except String (List PlayerRow)
  | [] => Except.ok []
  | player :: rest =>
    if player.cena ≤ 0 then prepare_player_dataframe expA rest
    else
      let gs_per_game := FantasyScorer.calculate_game_score expA player
      let fp_per_game := FantasyScorer.calculate_fantasy_points_per_game expA player
      match fantasyScorerStatsExtractor expA "_extract_stats" with
      | Except.error e => Except.error e
      | Except.ok extract =>
        let stats := extract player
        let games := FantasyScorer._get_stat stats ["games", "gamesPlayed", "games_played"]
        if games = 0 then prepare_player_dataframe expA rest
        else
          match prepare_player_dataframe expA rest with
          | Except.error e => Except.error e
          | Except.ok rows =>
            Except.ok
              ({ name := player.name
                 position := FantasyScorer._normalize_position (player.position.getD "F")
                 team := player.team
                 price := player.cena
                 games := games
                 gs_per_game := gs_per_game
                 fp_per_game := fp_per_game
                 total_gs := gs_per_game * games
                 total_fp := fp_per_game * games } :: rows)

end AdvancedLineupOptimizer

/-! Claim-side definitions and concrete inputs used by the theorems below. -/

/-- Modelled from the claim wording for `_get_stat` (C6): return the float
coercion of the first alias key that is present at all, and `0.0` when that
first present value is non-numeric or when no alias key is present.  This is
the claim's reading, written independently of the source, for comparison
with `FantasyScorer._get_stat`. -/
def get_stat_claimed (stats : StatsBag) (keys : List String) : ℚ :=
  match (keys.filterMap (fun k => dictGet stats k)).head? with
  | Option.some (PyVal.num q) => q
  | Option.some PyVal.none => 0
  | Option.some PyVal.nonNum => 0
  | Option.none => 0

/-- The coercible value of one alias key: `some q` when the key is bound to a
value `float(...)` accepts, and `none` when the key is absent, `None`-valued
or non-coercible.  Used to characterize `_get_stat`. -/
def coercedValue (stats : StatsBag) (key : String) : Option ℚ :=
  match dictGet stats key with
  | Option.some (PyVal.num q) => Option.some q
  | Option.some PyVal.none => Option.none
  | Option.some PyVal.nonNum => Option.none
  | Option.none => Option.none

/-- A stats bag whose first penalty-minutes alias is bound to a non-numeric
value while the second alias is numeric. -/
def aliasBag : StatsBag := [("pim", PyVal.nonNum), ("penaltyMinutes", PyVal.num 2)]

/-- The Scenario A stats bag of the specification. -/
def scenarioAStats : StatsBag :=
  [("goals", PyVal.num 20), ("assists", PyVal.num 30), ("shots", PyVal.num 200),
   ("hits", PyVal.num 50), ("blockedShots", PyVal.num 10), ("plusMinus", PyVal.num 5),
   ("pim", PyVal.num 40), ("gamesPlayed", PyVal.num 82)]

/-- The Scenario A forward: the stats land in the generic `stats` bag and no
previous-season data exists. -/
def scenarioAPlayer : Player :=
  { name := "Scenario A"
    team := "AAA"
    position := Option.some "F"
    cena := 1
    featuredStats := Option.none
    seasonTotals := Option.none
    current_season := Option.none
    stats := Option.some scenarioAStats
    current_season_stats := Option.none }

/-- A goalie whose only non-zero statistics are goals, with a given
power-play and short-handed split. -/
def goalieWithGoals (g pp sh : ℚ) : Player :=
  { name := "Scoring Goalie"
    team := "AAA"
    position := Option.some "G"
    cena := 1
    featuredStats := Option.none
    seasonTotals := Option.none
    current_season := Option.none
    stats := Option.some
      [("goals", PyVal.num g), ("powerPlayGoals", PyVal.num pp),
       ("shorthandedGoals", PyVal.num sh)]
    current_season_stats := Option.none }

/-- A player with current-season stats in the `stats` bag and an NHL
regular-season previous-season entry in `seasonTotals`. -/
def blendPlayer : Player :=
  { name := "Blend"
    team := "AAA"
    position := Option.some "F"
    cena := 5
    featuredStats := Option.none
    seasonTotals := Option.some
      [{ season := "20242025"
         leagueAbbrev := "NHL"
         gameTypeId := 2
         bag := [("gamesPlayed", PyVal.num 82), ("goals", PyVal.num 30)] }]
    current_season := Option.none
    stats := Option.some [("gamesPlayed", PyVal.num 10), ("goals", PyVal.num 5)]
    current_season_stats := Option.none }

/-- A player carrying a positive price, as fed to the advanced optimizer. -/
def pricedPlayer : Player :=
  { name := "Priced"
    team := "AAA"
    position := Option.some "F"
    cena := 5
    featuredStats := Option.none
    seasonTotals := Option.none
    current_season := Option.none
    stats := Option.some [("gamesPlayed", PyVal.num 10), ("goals", PyVal.num 3)]
    current_season_stats := Option.none }

/-- A single valid candidate (positive price and value) whose cost exceeds
the greedy fill's budget of 110. -/
def expensiveLoner : LineupOptimizer.OptPlayer := { cena := 150, value_score := 10 }

/-- Two affordable valid candidates for the exact-quota witness. -/
def quotaPair : List LineupOptimizer.OptPlayer :=
  [{ cena := 10, value_score := 5 }, { cena := 20, value_score := 7 }]

/-! Theorems. -/

theorem forward_points_nonneg (stats : StatsBag) :
    0 ≤ FantasyScorer._calculate_forward_points stats := by
  unfold FantasyScorer._calculate_forward_points
  exact le_max_left 0 _

theorem defender_points_nonneg (stats : StatsBag) :
    0 ≤ FantasyScorer._calculate_defender_points stats := by
  unfold FantasyScorer._calculate_defender_points
  exact le_max_left 0 _

theorem goalie_points_nonneg (stats : StatsBag) :
    0 ≤ FantasyScorer._calculate_goalie_points stats := by
  unfold FantasyScorer._calculate_goalie_points
  exact le_max_left 0 _

/-- C1: for every player dictionary, of any position and with any stats bag
(including adversarial bags with negative penalty-minute-derived
contributions) and for every model of `math.exp`,
`FantasyScorer.calculate_points` returns a value greater than or equal
to 0: each position-specific calculator ends in `max(0, points)` and the
no-stats path returns `0.0`. -/
theorem calculate_points_nonneg (expA : ℚ → ℚ) (player : Player) :
    0 ≤ FantasyScorer.calculate_points expA player := by
  by_cases h1 : FantasyScorer._extract_combined_stats expA player = []
  · simp [FantasyScorer.calculate_points, h1]
  · by_cases h2 :
      FantasyScorer._normalize_position ((Player.position player).getD "F") = "G"
    · simp [FantasyScorer.calculate_points, h1, h2, goalie_points_nonneg]
    · by_cases h3 :
        FantasyScorer._normalize_position ((Player.position player).getD "F") = "D"
      · simp [FantasyScorer.calculate_points, h1, h2, h3, defender_points_nonneg]
      · simp [FantasyScorer.calculate_points, h1, h2, h3, forward_points_nonneg]

/-- C2: for the Scenario A forward (20 goals, 30 assists, 200 shots, 50 hits,
10 blocked shots, plus/minus 5, 40 penalty minutes, 82 games, no power-play
or short-handed attribution, no previous season) `calculate_points` returns
exactly 1114, for every model of `math.exp` (the blending path is not
taken). -/
theorem scenarioA_points (expA : ℚ → ℚ) :
    FantasyScorer.calculate_points expA scenarioAPlayer = 1114 := by
  have h : FantasyScorer.calculate_points expA scenarioAPlayer
      = FantasyScorer._calculate_forward_points scenarioAStats := rfl
  rw [h]
  have hg : FantasyScorer._get_stat scenarioAStats ["goals", "g"] = 20 := rfl
  have hpp : FantasyScorer._get_stat scenarioAStats ["powerPlayGoals", "ppg"] = 0 := rfl
  have hsh : FantasyScorer._get_stat scenarioAStats ["shorthandedGoals", "shg"] = 0 := rfl
  have hgwg : FantasyScorer._get_stat scenarioAStats ["gameWinningGoals", "gwg"] = 0 := rfl
  have ha : FantasyScorer._get_stat scenarioAStats ["assists", "a"] = 30 := rfl
  have hppp : FantasyScorer._get_stat scenarioAStats ["powerPlayPoints", "ppp"] = 0 := rfl
  have hshp : FantasyScorer._get_stat scenarioAStats ["shorthandedPoints", "shp"] = 0 := rfl
  have hs : FantasyScorer._get_stat scenarioAStats ["shots", "sog", "s"] = 200 := rfl
  have hh : FantasyScorer._get_stat scenarioAStats ["hits", "h"] = 50 := rfl
  have hb : FantasyScorer._get_stat scenarioAStats ["blockedShots", "blocked", "bs"] = 10 := rfl
  have hpm : FantasyScorer._get_stat scenarioAStats
      ["plusMinus", "plus_minus_rating", "plusminus"] = 5 := rfl
  have hpim : FantasyScorer._get_stat scenarioAStats ["pim", "penaltyMinutes"] = 40 := rfl
  simp only [FantasyScorer._calculate_forward_points, hg, hpp, hsh, hgwg, ha, hppp, hshp,
    hs, hh, hb, hpm, hpim]
  norm_num [pyInt, FantasyScorer.forward_scoring, FantasyScorer.common_scoring, max_def]

/-- C3 counterexample: for the fixed raw points value −10,
`calculate_effective_points` strictly increases when the cost grows from 100
to 200, so it is not non-increasing in `total_cost` for every fixed
`raw_points` value. -/
theorem effective_points_monotone_counterexample :
    (100 : ℚ) ≤ 200 ∧
    LineupOptimizer.calculate_effective_points LineupOptimizer.defaultConstraints (-10) 100 <
      LineupOptimizer.calculate_effective_points LineupOptimizer.defaultConstraints (-10) 200 := by
  constructor
  · norm_num
  · norm_num [LineupOptimizer.calculate_effective_points,
      LineupOptimizer.calculate_budget_penalty, LineupOptimizer.defaultConstraints]

theorem budget_penalty_mono (c1 c2 : ℚ) (h : c1 ≤ c2) :
    LineupOptimizer.calculate_budget_penalty LineupOptimizer.defaultConstraints c1 ≤
      LineupOptimizer.calculate_budget_penalty LineupOptimizer.defaultConstraints c2 := by
  unfold LineupOptimizer.calculate_budget_penalty LineupOptimizer.defaultConstraints
  split_ifs with h1 h2
  · exact le_refl 0
  · nlinarith
  · nlinarith
  · nlinarith

/-- C3 (amended): with the default constraints (base budget 100, penalty
rate 0.01), `calculate_effective_points` is non-increasing as the total cost
increases whenever the raw points value is non-negative (the restriction the
counterexample forces); and for every raw points value — negative ones
included — it equals the raw points whenever the cost is at most the base
budget, and a cost of 115 yields exactly `raw_points * 0.85`. -/
theorem effective_points_budget_penalty (raw c1 c2 c : ℚ)
    (h12 : c1 ≤ c2)
    (hc : c ≤ LineupOptimizer.defaultConstraints.base_budget) :
    (0 ≤ raw →
      LineupOptimizer.calculate_effective_points LineupOptimizer.defaultConstraints raw c2 ≤
        LineupOptimizer.calculate_effective_points LineupOptimizer.defaultConstraints raw c1) ∧
    LineupOptimizer.calculate_effective_points LineupOptimizer.defaultConstraints raw c = raw ∧
    LineupOptimizer.calculate_effective_points LineupOptimizer.defaultConstraints raw 115 =
      raw * 0.85 := by
  refine ⟨fun hraw => ?_, ?_, ?_⟩
  · unfold LineupOptimizer.calculate_effective_points
    have := budget_penalty_mono c1 c2 h12
    nlinarith
  · unfold LineupOptimizer.calculate_effective_points LineupOptimizer.calculate_budget_penalty
    rw [if_pos hc]
    ring
  · unfold LineupOptimizer.calculate_effective_points LineupOptimizer.calculate_budget_penalty
      LineupOptimizer.defaultConstraints
    norm_num

theorem effective_points_budget_penalty_witness :
    (LineupOptimizer.calculate_effective_points LineupOptimizer.defaultConstraints 2 120 ≤
      LineupOptimizer.calculate_effective_points LineupOptimizer.defaultConstraints 2 100) ∧
    LineupOptimizer.calculate_effective_points LineupOptimizer.defaultConstraints (-3) 50 =
      -3 ∧
    LineupOptimizer.calculate_effective_points LineupOptimizer.defaultConstraints (-3) 115 =
      -3 * 0.85 :=
  ⟨(effective_points_budget_penalty 2 100 120 50 (by norm_num) (by decide)).1 (by norm_num),
   (effective_points_budget_penalty (-3) 100 120 50 (by norm_num) (by decide)).2.1,
   (effective_points_budget_penalty (-3) 100 120 50 (by norm_num) (by decide)).2.2⟩

theorem get_stat_nil (keys : List String) : FantasyScorer._get_stat [] keys = 0 := by
  induction keys with
  | nil => rfl
  | cons k ks ih => simpa [FantasyScorer._get_stat, dictGet] using ih

theorem get_stat_dictSet_same (bag : StatsBag) (key : String) (q : ℚ) :
    FantasyScorer._get_stat (dictSet bag key (PyVal.num q)) [key] = q := by
  simp [FantasyScorer._get_stat, dictSet, dictGet, List.find?_cons_of_pos]

/-- C4: whenever previous-season data exists and the current season's
games-played count is positive, the blended view produced by
`_extract_combined_stats` carries exactly the current season's games-played
count (never the sum of both seasons), for every model of `math.exp`. -/
theorem blended_games_played_invariant (expA : ℚ → ℚ) (player : Player)
    (hprev : (FantasyScorer.extractRawStats player).2 ≠ [])
    (hgames : 0 < FantasyScorer._get_stat (FantasyScorer.extractRawStats player).1
      ["gamesPlayed"]) :
    FantasyScorer._get_stat (FantasyScorer._extract_combined_stats expA player)
        ["gamesPlayed"] =
      FantasyScorer._get_stat (FantasyScorer.extractRawStats player).1 ["gamesPlayed"] := by
  have hcur : ¬ (FantasyScorer.extractRawStats player).1 = [] := by
    intro h
    rw [h, get_stat_nil] at hgames
    exact lt_irrefl 0 hgames
  unfold FantasyScorer._extract_combined_stats
  rw [if_neg hcur, if_pos ⟨hprev, hgames⟩]
  exact get_stat_dictSet_same _ _ _

theorem blended_games_played_invariant_witness :
    FantasyScorer._get_stat (FantasyScorer._extract_combined_stats (fun q => q) blendPlayer)
        ["gamesPlayed"] =
      FantasyScorer._get_stat (FantasyScorer.extractRawStats blendPlayer).1 ["gamesPlayed"] :=
  blended_games_played_invariant (fun q => q) blendPlayer (by decide) (by decide)

theorem goalie_only_goals_points (expA : ℚ → ℚ) (g pp sh : ℚ)
    (hg : 0 < g) (hpp : 0 ≤ pp) (hsh : 0 ≤ sh) (hle : pp + sh ≤ g) :
    FantasyScorer.calculate_points expA (goalieWithGoals g pp sh) = 40 * g := by
  have h : FantasyScorer.calculate_points expA (goalieWithGoals g pp sh)
      = FantasyScorer._calculate_goalie_points
        [("goals", PyVal.num g), ("powerPlayGoals", PyVal.num pp),
         ("shorthandedGoals", PyVal.num sh)] := rfl
  rw [h]
  have h1 : FantasyScorer._get_stat
      [("goals", PyVal.num g), ("powerPlayGoals", PyVal.num pp),
       ("shorthandedGoals", PyVal.num sh)] ["goals", "g"] = g := rfl
  have h2 : FantasyScorer._get_stat
      [("goals", PyVal.num g), ("powerPlayGoals", PyVal.num pp),
       ("shorthandedGoals", PyVal.num sh)] ["powerPlayGoals", "ppg"] = pp := rfl
  have h3 : FantasyScorer._get_stat
      [("goals", PyVal.num g), ("powerPlayGoals", PyVal.num pp),
       ("shorthandedGoals", PyVal.num sh)] ["shorthandedGoals", "shg"] = sh := rfl
  have h4 : FantasyScorer._get_stat
      [("goals", PyVal.num g), ("powerPlayGoals", PyVal.num pp),
       ("shorthandedGoals", PyVal.num sh)] ["wins", "w"] = 0 := rfl
  have h5 : FantasyScorer._get_stat
      [("goals", PyVal.num g), ("powerPlayGoals", PyVal.num pp),
       ("shorthandedGoals", PyVal.num sh)] ["losses", "l"] = 0 := rfl
  have h6 : FantasyScorer._get_stat
      [("goals", PyVal.num g), ("powerPlayGoals", PyVal.num pp),
       ("shorthandedGoals", PyVal.num sh)] ["shutouts", "so"] = 0 := rfl
  have h7 : FantasyScorer._get_stat
      [("goals", PyVal.num g), ("powerPlayGoals", PyVal.num pp),
       ("shorthandedGoals", PyVal.num sh)] ["saves", "sv", "savesTotal"] = 0 := rfl
  have h8 : FantasyScorer._get_stat
      [("goals", PyVal.num g), ("powerPlayGoals", PyVal.num pp),
       ("shorthandedGoals", PyVal.num sh)] ["shotsAgainst", "sa"] = 0 := rfl
  have h9 : FantasyScorer._get_stat
      [("goals", PyVal.num g), ("powerPlayGoals", PyVal.num pp),
       ("shorthandedGoals", PyVal.num sh)] ["goalsAgainst", "ga"] = 0 := rfl
  have h10 : FantasyScorer._get_stat
      [("goals", PyVal.num g), ("powerPlayGoals", PyVal.num pp),
       ("shorthandedGoals", PyVal.num sh)] ["assists", "a"] = 0 := rfl
  simp only [FantasyScorer._calculate_goalie_points, FantasyScorer.goalie_scoring,
    h1, h2, h3, h4, h5, h6, h7, h8, h9, h10]
  rw [if_neg (lt_irrefl (0 : ℚ)), if_pos hg]
  have hmax : max 0 (g - pp - sh) = g - pp - sh := max_eq_right (by linarith)
  rw [hmax]
  norm_num
  rw [max_eq_right]
  · linarith
  · linarith

/-- C5 counterexample: a goalie with a single (even-strength) goal and no
other statistics scores 40 points, not the forward-tier 12, so goalie goals
are not scored with the forward-tier per-goal values. -/
theorem goalie_goal_tier_counterexample :
    FantasyScorer.calculate_points (fun q => q) (goalieWithGoals 1 0 0) = 40 ∧
    FantasyScorer.forward_scoring.goal_even = 12 ∧ ((40 : ℚ) ≠ 12) := by
  refine ⟨?_, rfl, by norm_num⟩
  have h := goalie_only_goals_points (fun q => q) 1 0 0 (by norm_num) (by norm_num)
    (by norm_num) (by norm_num)
  rw [h]
  norm_num

/-- C5 (amended): a goalie's goals are scored separately by type, but with
the goalie table's value of 40 points for each of the even-strength,
power-play and short-handed types (scoring.py lines 66-69 and 519-528), not
the forward-tier 12/10/16: a goalie whose only statistics are `g` goals
split into `pp` power-play and `sh` short-handed goals scores `40 * g`. -/
theorem goalie_goals_scored_at_forty (expA : ℚ → ℚ) (g pp sh : ℚ)
    (hg : 0 < g) (hpp : 0 ≤ pp) (hsh : 0 ≤ sh) (hle : pp + sh ≤ g) :
    FantasyScorer.calculate_points expA (goalieWithGoals g pp sh) = 40 * g ∧
    FantasyScorer.goalie_scoring.goal_even = 40 ∧
    FantasyScorer.goalie_scoring.goal_pp = 40 ∧
    FantasyScorer.goalie_scoring.goal_sh = 40 :=
  ⟨goalie_only_goals_points expA g pp sh hg hpp hsh hle, rfl, rfl, rfl⟩

theorem goalie_goals_scored_at_forty_witness :
    FantasyScorer.calculate_points (fun q => q) (goalieWithGoals 2 1 0) = 40 * 2 ∧
    FantasyScorer.goalie_scoring.goal_even = 40 ∧
    FantasyScorer.goalie_scoring.goal_pp = 40 ∧
    FantasyScorer.goalie_scoring.goal_sh = 40 :=
  goalie_goals_scored_at_forty (fun q => q) 2 1 0 (by norm_num) (by norm_num)
    (by norm_num) (by norm_num)

/-- C6 counterexample: on a bag binding the first alias to a non-numeric
value and the second alias to 2, `_get_stat` returns 2.0 (it skips the
non-coercible first value and keeps trying later aliases) where the claim's
reading — return 0.0 when the first present value is non-numeric — yields
0.0. -/
theorem get_stat_claim_counterexample :
    FantasyScorer._get_stat aliasBag ["pim", "penaltyMinutes"] = 2 ∧
    get_stat_claimed aliasBag ["pim", "penaltyMinutes"] = 0 ∧ ((2 : ℚ) ≠ 0) := by
  refine ⟨rfl, rfl, by norm_num⟩

/-- C6 (amended): for every stats dictionary and alias list, `_get_stat`
tries the aliases in order and returns the float coercion of the first alias
whose present value coerces, skipping aliases that are absent, `None`-valued
or non-coercible (rather than returning 0.0 at the first present non-numeric
value), and returns 0.0 when no alias yields a coercible value; being a
total function of the bag, it never raises. -/
theorem get_stat_first_coercible (stats : StatsBag) (keys : List String) :
    FantasyScorer._get_stat stats keys =
      ((keys.filterMap (fun k => coercedValue stats k)).head?).getD 0 := by
  induction keys with
  | nil => rfl
  | cons k ks ih =>
    cases h : dictGet stats k with
    | none => simp [FantasyScorer._get_stat, coercedValue, h, ih]
    | some v =>
      cases v with
      | none => simp [FantasyScorer._get_stat, coercedValue, h, ih]
      | num q => simp [FantasyScorer._get_stat, coercedValue, h]
      | nonNum => simp [FantasyScorer._get_stat, coercedValue, h, ih]

/-- C7: the claim that `prepare_player_dataframe` completes without raising
on any list containing a positively-priced player is right about the intent
but wrong about the code: advanced_optimizer.py line 66 calls
`scorer._extract_stats(player)`, a method `FantasyScorer` does not define
(the extractor is `_extract_combined_stats`, scoring.py line 249), so the
first positively-priced player raises `AttributeError` and the whole call
aborts. -/
theorem prepare_player_dataframe_attribute_error (expA : ℚ → ℚ)
    (players : List Player) (h : ∃ p ∈ players, 0 < p.cena) :
    AdvancedLineupOptimizer.prepare_player_dataframe expA players =
      Except.error "AttributeError: FantasyScorer object has no attribute _extract_stats" := by
  induction players with
  | nil => simp at h
  | cons p ps ih =>
    rcases h with ⟨q, hq, hq0⟩
    rcases List.mem_cons.mp hq with rfl | hmem
    · have hp : ¬ q.cena ≤ 0 := not_le.mpr hq0
      simp only [AdvancedLineupOptimizer.prepare_player_dataframe, if_neg hp]
      rfl
    · by_cases hp : p.cena ≤ 0
      · simp only [AdvancedLineupOptimizer.prepare_player_dataframe, if_pos hp]
        exact ih ⟨q, hmem, hq0⟩
      · simp only [AdvancedLineupOptimizer.prepare_player_dataframe, if_neg hp]
        rfl

theorem prepare_player_dataframe_attribute_error_witness :
    AdvancedLineupOptimizer.prepare_player_dataframe (fun q => q) [pricedPlayer] =
      Except.error "AttributeError: FantasyScorer object has no attribute _extract_stats" :=
  prepare_player_dataframe_attribute_error (fun q => q) [pricedPlayer]
    ⟨pricedPlayer, by simp, by norm_num [pricedPlayer]⟩

/-- C8: `_normalize_position` is total over the three position codes (every
string maps to one of "G", "D", "F"), idempotent, and maps every string
whose uppercased-and-stripped form is in none of the three alias lists to
"F". -/
theorem normalize_position_total_idempotent (s : String) :
    (FantasyScorer._normalize_position s = "G" ∨
      FantasyScorer._normalize_position s = "D" ∨
      FantasyScorer._normalize_position s = "F") ∧
    FantasyScorer._normalize_position (FantasyScorer._normalize_position s) =
      FantasyScorer._normalize_position s ∧
    (pyStrip (pyUpper s) ∉ FantasyScorer.goalie_aliases →
      pyStrip (pyUpper s) ∉ FantasyScorer.defender_aliases →
      pyStrip (pyUpper s) ∉ FantasyScorer.forward_aliases →
      FantasyScorer._normalize_position s = "F") := by
  have htot : ∀ t : String, FantasyScorer._normalize_position t = "G" ∨
      FantasyScorer._normalize_position t = "D" ∨
      FantasyScorer._normalize_position t = "F" := by
    intro t
    simp only [FantasyScorer._normalize_position]
    split_ifs <;> simp
  refine ⟨htot s, ?_, ?_⟩
  · rcases htot s with h | h | h <;> rw [h] <;> decide
  · intro h1 h2 h3
    simp only [FantasyScorer._normalize_position]
    rw [if_neg h1, if_neg h2, if_neg h3]

theorem normalize_position_total_idempotent_witness :
    FantasyScorer._normalize_position "xyz" = "F" :=
  (normalize_position_total_idempotent "xyz").2.2 (by decide) (by decide) (by decide)

/-- C9 counterexample: on the Czech/Slovak goalie alias "B" the two
implementations disagree: the scorer normalizes it to "G" while the
optimizer, whose alias lists lack the Czech/Slovak entries, defaults it to
"F". -/
theorem normalize_agreement_counterexample :
    FantasyScorer._normalize_position "B" = "G" ∧
    LineupOptimizer.normalize_position "B" = "F" ∧
    FantasyScorer._normalize_position "B" ≠ LineupOptimizer.normalize_position "B" := by
  refine ⟨rfl, rfl, ?_⟩
  decide

/-- C9 (amended): the two normalizers agree on every string whose
uppercased-and-stripped form is not one of the Czech/Slovak goalie and
defender aliases known only to the scorer ("B", "BRANKÁR", "BRANKAŘ", "O",
"OBRANCA", "OBRÁNCE"); on those six the scorer returns "G" or "D" while the
optimizer returns "F".  The Czech forward aliases ("Ú", "ÚTOČNÍK",
"UTOČNÍK") need no exclusion: the scorer maps them to "F" and the optimizer
defaults them to "F". -/
theorem normalize_position_agreement (s : String)
    (h : pyStrip (pyUpper s) ∉
      (["B", "BRANKÁR", "BRANKAŘ", "O", "OBRANCA", "OBRÁNCE"] : List String)) :
    FantasyScorer._normalize_position s = LineupOptimizer.normalize_position s := by
  simp only [FantasyScorer._normalize_position, LineupOptimizer.normalize_position]
  simp only [List.mem_cons, List.not_mem_nil, or_false, not_or] at h
  obtain ⟨hB, hBR1, hBR2, hO, hOB1, hOB2⟩ := h
  have hG : pyStrip (pyUpper s) ∈ FantasyScorer.goalie_aliases ↔
      pyStrip (pyUpper s) ∈ LineupOptimizer.goalie_aliases := by
    simp only [FantasyScorer.goalie_aliases, LineupOptimizer.goalie_aliases,
      List.mem_cons, List.not_mem_nil, or_false]
    tauto
  have hD : pyStrip (pyUpper s) ∈ FantasyScorer.defender_aliases ↔
      pyStrip (pyUpper s) ∈ LineupOptimizer.defender_aliases := by
    simp only [FantasyScorer.defender_aliases, LineupOptimizer.defender_aliases,
      List.mem_cons, List.not_mem_nil, or_false]
    tauto
  by_cases hg : pyStrip (pyUpper s) ∈ LineupOptimizer.goalie_aliases
  · rw [if_pos (hG.mpr hg), if_pos hg]
  · rw [if_neg (fun hx => hg (hG.mp hx)), if_neg hg]
    by_cases hd : pyStrip (pyUpper s) ∈ LineupOptimizer.defender_aliases
    · rw [if_pos (hD.mpr hd), if_pos hd]
    · rw [if_neg (fun hx => hd (hD.mp hx)), if_neg hd, ite_self, ite_self]

theorem normalize_position_agreement_witness :
    FantasyScorer._normalize_position "CENTER" = LineupOptimizer.normalize_position "CENTER" :=
  normalize_position_agreement "CENTER" (by decide)

theorem fill_position_starters_all :
    ∀ (available : List LineupOptimizer.OptPlayer) (count : Nat)
      (max_budget total_cost : ℚ) (selected_count : Nat),
      selected_count + available.length ≤ count →
      (∀ p ∈ available, 0 < p.cena ∧ 0 < p.value_score) →
      total_cost + (available.map LineupOptimizer.OptPlayer.cena).sum ≤ max_budget →
      LineupOptimizer.fill_position_starters available count max_budget total_cost
        selected_count = available := by
  intro available
  induction available with
  | nil => intro count mb tc sc h1 h2 h3; rfl
  | cons p rest ih =>
    intro count mb tc sc h1 h2 h3
    have hlt : ¬ count ≤ sc := by
      simp only [List.length_cons] at h1
      omega
    have hp := h2 p (List.mem_cons_self p rest)
    have hv : ¬ (p.cena ≤ 0 ∨ p.value_score ≤ 0) := by
      simp only [not_or, not_le]
      exact hp
    have hsum0 : 0 ≤ (rest.map LineupOptimizer.OptPlayer.cena).sum := by
      apply List.sum_nonneg
      intro x hx
      obtain ⟨q, hq, rfl⟩ := List.mem_map.mp hx
      exact le_of_lt (h2 q (List.mem_cons_of_mem p hq)).1
    have hsum : tc + p.cena + (rest.map LineupOptimizer.OptPlayer.cena).sum ≤ mb := by
      simp only [List.map_cons, List.sum_cons] at h3
      linarith
    have haff : tc + p.cena ≤ mb := by linarith
    simp only [LineupOptimizer.fill_position_starters, if_neg hlt, if_neg hv, if_pos haff]
    congr 1
    apply ih count mb (tc + p.cena) (sc + 1)
    · simp only [List.length_cons] at h1
      omega
    · intro q hq
      exact h2 q (List.mem_cons_of_mem p hq)
    · exact hsum

/-- C10 counterexample: a position group with exactly one candidate — valid
by the pool filter (positive price, positive value score) — whose cost of
150 exceeds the greedy fill's default budget of 110: the note condition
holds, yet the candidate is skipped by the affordability check (no cheaper
alternate exists) and nothing is selected, refuting "all of those candidates
are selected as starters". -/
theorem exact_quota_fill_counterexample :
    LineupOptimizer.logs_no_alternatives_note [expensiveLoner] 1 = true ∧
    (0 : ℚ) < expensiveLoner.cena ∧ (0 : ℚ) < expensiveLoner.value_score ∧
    LineupOptimizer.fill_position_starters [expensiveLoner] 1 110 0 0 = [] ∧
    ([] : List LineupOptimizer.OptPlayer) ≠ [expensiveLoner] := by
  refine ⟨rfl, by norm_num [expensiveLoner], by norm_num [expensiveLoner], ?_, by simp⟩
  simp only [LineupOptimizer.fill_position_starters, expensiveLoner,
    LineupOptimizer.findCheaperAlternative]
  norm_num

/-- C10 (amended): whenever a position group contains exactly as many
candidates as its required quota, `build_greedy_lineup` logs the note that
no optimization alternatives exist; and all of those candidates are selected
as starters provided each has positive cost and positive value score and the
group's total cost fits within the remaining budget — candidates that fail
the per-player validity or affordability checks are skipped (possibly
leaving the position underfilled), as the counterexample forces. -/
theorem exact_quota_fill (available : List LineupOptimizer.OptPlayer) (count : Nat)
    (max_budget total_cost : ℚ)
    (hlen : available.length = count)
    (hvalid : ∀ p ∈ available, 0 < p.cena ∧ 0 < p.value_score)
    (hafford : total_cost + (available.map LineupOptimizer.OptPlayer.cena).sum ≤ max_budget) :
    LineupOptimizer.logs_no_alternatives_note available count = true ∧
    LineupOptimizer.fill_position_starters available count max_budget total_cost 0 =
      available := by
  constructor
  · simp [LineupOptimizer.logs_no_alternatives_note, hlen]
  · exact fill_position_starters_all available count max_budget total_cost 0
      (by omega) hvalid hafford

theorem exact_quota_fill_witness :
    LineupOptimizer.logs_no_alternatives_note quotaPair 2 = true ∧
    LineupOptimizer.fill_position_starters quotaPair 2 110 0 0 = quotaPair :=
  exact_quota_fill quotaPair 2 110 0 rfl
    (by intro p hp; fin_cases hp <;> constructor <;> norm_num [quotaPair])
    (by norm_num [quotaPair])

end TipsportAnalyzer
